import Mathlib

/-!
Verification of the authentication subsystem of the AutoDesk Kiwi API
(`src/api/auth.py`): password hashing and verification, JWT issuance and
decoding, and the registration / login / request-authorization logic.

Python strings that are immediately UTF-8 encoded (passwords, stored
hashes) are modelled as lists of byte values (`Bytes`); other strings
(usernames, emails, error details) are modelled as Lean `String`s.
The external bcrypt and jose libraries are not part of the repository,
so their behaviour is modelled from the specification (section 4.1
Credential Hasher and section 4.2 Token Codec); each such definition is
marked `Modelled from the spec:` in its doc comment.  Everything under
`src/api/auth.py` itself is translated directly from the source.
-/

namespace AutodeskKiwi

/-- Byte strings: Python `bytes` values, as lists of byte values. -/
abbrev Bytes := List Nat

/-- Modelled from the spec: the decoded form of a bcrypt hash, carrying
the cost factor, the salt and the digest ("encodes salt + cost factor +
digest into one returned string", spec section 4.1). -/
structure BcryptHash where
  cost : Nat
  salt : Nat
  digest : Bytes
deriving DecidableEq, Repr

/-- Modelled from the spec: the bcrypt key-derivation digest.  It depends
only on the first 72 bytes of the password ("truncates the password's
byte representation at 72 bytes", spec section 4.1) together with the
salt and cost, and is idealized as collision-free (injective) in those
inputs, the standard idealization of a cryptographic hash. -/
def bcryptDigest (cost salt : Nat) (password : Bytes) : Bytes :=
  cost :: salt :: password.take 72

/-- Fixed bcrypt cost factor ("cost factor fixed, not configurable at
call time", spec section 4.1); the default of the library's salt
generator. -/
def bcryptCost : Nat := 12

/-- Modelled from the spec: serialization of a bcrypt hash into the
single returned string, in the `$2b$` prefixed format. -/
def encodeHash (h : BcryptHash) : Bytes :=
  0x24 :: 0x32 :: 0x62 :: 0x24 :: h.cost :: h.salt :: h.digest

/-- Modelled from the spec: parsing a stored hash string back into
salt, cost and digest; returns `none` on a string not in the encoded
format (a malformed hash). -/
def parseHash : Bytes → Option BcryptHash
  | 0x24 :: 0x32 :: 0x62 :: 0x24 :: c :: s :: d => some ⟨c, s, d⟩
  | _ => none

/-- Modelled from the spec: `bcrypt.gensalt()` draws a fresh random
salt; the randomness is made explicit as the `entropy` argument. -/
def bcrypt_gensalt (entropy : Nat) : Nat := entropy

/-- Modelled from the spec: `bcrypt.hashpw` computes the digest of the
password (at most its first 72 bytes) under the given salt and the
fixed cost, and returns the encoded salt+cost+digest string. -/
def bcrypt_hashpw (password : Bytes) (salt : Nat) : Bytes :=
  encodeHash ⟨bcryptCost, salt, bcryptDigest bcryptCost salt password⟩

/-- Modelled from the spec: `bcrypt.checkpw` "recomputes the digest
using the salt/cost embedded in `hash` and compares in constant time;
returns false (never throws) for a malformed hash" (spec section 4.1). -/
def bcrypt_checkpw (password : Bytes) (hashed : Bytes) : Bool :=
  match parseHash hashed with
  | some h => bcryptDigest h.cost h.salt password == h.digest
  | none => false

/-- Translation of `verify_password` (src/api/auth.py, lines 78-83):
verifies a plaintext password against a stored hash via
`bcrypt.checkpw`; the UTF-8 encoding of both arguments is the identity
in this byte-level model. -/
def verify_password (plain_password : Bytes) (hashed_password : Bytes) : Bool :=
  bcrypt_checkpw plain_password hashed_password

/-- Translation of `get_password_hash` (src/api/auth.py, lines 86-92):
truncates the UTF-8 encoded password at 72 bytes, draws a fresh salt,
and hashes with `bcrypt.hashpw`.  The salt randomness is the explicit
`entropy` argument. -/
def get_password_hash (entropy : Nat) (password : Bytes) : Bytes :=
  let password_bytes := password.take 72
  let salt := bcrypt_gensalt entropy
  let hashed := bcrypt_hashpw password_bytes salt
  hashed

/-- Modelled from the spec: the MAC algorithms a token can name.  The
codec uses a fixed algorithm ("a fixed MAC algorithm (HMAC-SHA256
equivalent)", spec section 4.2); `HS512` stands for any other
algorithm a forged token could carry. -/
inductive JwtAlg
  | HS256
  | HS512
deriving DecidableEq, Repr

/-- Claim set carried by a token: the subject claim `sub` and the
expiry claim `exp` (absolute timestamp, seconds), each optional as in a
JSON payload ("the structured payload inside a token (subject + expiry)
protected by a signature", spec glossary). -/
structure Claims where
  sub : Option String
  exp : Option Int
deriving DecidableEq, Repr

/-- Modelled from the spec: an HMAC over the serialized claim set
("signs it with a symmetric secret", spec section 4.2), idealized as a
perfectly binding MAC: a signature determines the signing secret, the
algorithm and the payload, so it verifies under exactly one key. -/
structure JwtSig where
  secret : Nat
  alg : JwtAlg
  payload : Claims
deriving DecidableEq, Repr

/-- Modelled from the spec: a presented token is either a well-formed
compact encoding of payload, algorithm header and signature, or a
malformed string that fails parsing. -/
inductive JwtToken
  | signed (payload : Claims) (alg : JwtAlg) (sig : JwtSig)
  | malformed
deriving DecidableEq, Repr

/-- Modelled from the spec: computing the MAC of a payload under a
secret and an algorithm. -/
def hmacSign (secret : Nat) (alg : JwtAlg) (payload : Claims) : JwtSig :=
  ⟨secret, alg, payload⟩

/-- Modelled from the spec: `jwt.encode` serializes the claim set and
signs it with the given secret and algorithm. -/
def jwt_encode (payload : Claims) (key : Nat) (algorithm : JwtAlg) : JwtToken :=
  .signed payload algorithm (hmacSign key algorithm payload)

/-- Modelled from the spec: `jwt.decode` "verifies signature and
algorithm match, checks `exp` against current time; returns null on any
failure (bad signature, wrong algorithm, expired, malformed)" (spec
section 4.2).  A raised decoding error is modelled as `none`; a missing
`exp` claim is simply not checked. -/
def jwt_decode (token : JwtToken) (key : Nat) (algorithms : List JwtAlg)
    (now : Int) : Option Claims :=
  match token with
  | .malformed => none
  | .signed payload alg sig =>
    if alg ∈ algorithms then
      if sig = hmacSign key alg payload then
        match payload.exp with
        | some e => if e < now then none else some payload
        | none => some payload
      else none
    else none

/-- Process-wide symmetric secret (src/api/auth.py, line 27, sourced
from configuration); its value is opaque, modelled as an arbitrary
fixed constant. -/
def SECRET_KEY : Nat := 0

/-- Fixed signing algorithm (src/api/auth.py, line 28). -/
def ALGORITHM : JwtAlg := .HS256

/-- Token lifetime in minutes (src/api/auth.py, line 29;
`jwt_expire_minutes` defaults to 1440 in src/api/config.py). -/
def ACCESS_TOKEN_EXPIRE_MINUTES : Int := 1440

/-- Translation of `create_access_token` (src/api/auth.py, lines
97-103): copies the claim data, sets `exp` to now plus the requested
delta (or the configured default), and signs with the process secret.
Durations are in seconds; `now` is the current clock reading. -/
def create_access_token (now : Int) (data : Claims)
    (expires_delta : Option Int) : JwtToken :=
  let expire := now + expires_delta.getD (ACCESS_TOKEN_EXPIRE_MINUTES * 60)
  let to_encode : Claims := { data with exp := some expire }
  jwt_encode to_encode SECRET_KEY ALGORITHM

/-- Translation of `decode_token` (src/api/auth.py, lines 106-112):
decodes under the process secret with the fixed algorithm list; every
`JWTError` becomes `none`. -/
def decode_token (token : JwtToken) (now : Int) : Option Claims :=
  jwt_decode token SECRET_KEY [ALGORITHM] now

/-- Translation of the `User` model (src/api/auth.py, lines 37-44):
`id` is assigned by storage on creation, `created_at` is the creation
timestamp. -/
structure User where
  id : Option Nat
  username : String
  email : String
  hashed_password : Bytes
  is_active : Bool
  created_at : Int
deriving DecidableEq, Repr

/-- The user table, in insertion order.  A `select ... .first()` query
is a `find?` over this list. -/
abbrev Store := List User

/-- Translation of `session.exec(select(User).where(User.username ==
username)).first()`. -/
def findByUsername (store : Store) (username : String) : Option User :=
  store.find? (fun u => u.username == username)

/-- Translation of `session.exec(select(User).where(User.email ==
email)).first()`. -/
def findByEmail (store : Store) (email : String) : Option User :=
  store.find? (fun u => u.email == email)

/-- Outcome of an authorization dependency: the authenticated user, or
a raised `HTTPException` with its status code and detail message. -/
inductive AuthOutcome
  | ok (user : User)
  | error (status_code : Nat) (detail : String)
deriving DecidableEq, Repr

/-- Translation of `get_current_user` (src/api/auth.py, lines 117-142):
optional identity resolution.  `credentials` is the bearer credential
extracted by the security scheme (`none` when absent); a Python-falsy
subject (missing key or empty string) yields `None`. -/
def get_current_user (store : Store) (now : Int)
    (credentials : Option JwtToken) : Option User :=
  match credentials with
  | none => none
  | some token =>
    match decode_token token now with
    | none => none
    | some payload =>
      match payload.sub with
      | none => none
      | some username =>
        if username = "" then none
        else
          match findByUsername store username with
          | some user => if user.is_active then some user else none
          | none => none

/-- Python falsiness of a decoded claim dict: a dict is falsy exactly
when it is empty, i.e. carries neither a `sub` nor an `exp` key (an
absent field models an absent key). -/
def Claims.isFalsy (c : Claims) : Bool :=
  c == { sub := none, exp := none }

/-- Translation of `require_auth` (src/api/auth.py, lines 145-190):
required identity resolution; each failure raises an `HTTPException`,
modelled as an `AuthOutcome.error` with the source's status code and
detail string.  The guard `if not payload:` (line 162) is a Python
falsiness test, so it catches both a failed decode (`None`) and a
successfully decoded empty claim dict; it is rendered as the `none`
match arm together with the `isFalsy` test on the decoded payload,
both rejecting as "Invalid or expired token". -/
def require_auth (store : Store) (now : Int)
    (credentials : Option JwtToken) : AuthOutcome :=
  match credentials with
  | none => .error 401 "Authentication required"
  | some token =>
    match decode_token token now with
    | none => .error 401 "Invalid or expired token"
    | some payload =>
      if payload.isFalsy then .error 401 "Invalid or expired token"
      else
        match payload.sub with
        | none => .error 401 "Invalid token payload"
        | some username =>
          if username = "" then .error 401 "Invalid token payload"
          else
            match findByUsername store username with
            | none => .error 401 "User not found"
            | some user =>
              if user.is_active then .ok user
              else .error 403 "User account is disabled"

/-- Translation of the `UserCreate` registration schema
(src/api/auth.py, lines 47-51); the password is kept as its UTF-8
bytes. -/
structure UserCreate where
  username : String
  email : String
  password : Bytes
deriving DecidableEq, Repr

/-- Translation of the `UserLogin` schema (src/api/auth.py,
lines 54-57). -/
structure UserLogin where
  username : String
  password : Bytes
deriving DecidableEq, Repr

/-- Response of the `register` route: the route decorator's success
status (201) with the created user, or a raised `HTTPException`. -/
inductive RegisterResult
  | created (status_code : Nat) (user : User)
  | error (status_code : Nat) (detail : String)
deriving DecidableEq, Repr

/-- Translation of `register` (src/api/auth.py, lines 199-236): checks
username uniqueness, then email uniqueness, then hashes the password
and persists the new user.  `entropy` feeds the salt generator,
`next_id` is the surrogate key storage assigns, `now` stamps
`created_at`.  Returns the response together with the resulting
store. -/
def register (store : Store) (now : Int) (entropy : Nat) (next_id : Nat)
    (user_data : UserCreate) : RegisterResult × Store :=
  match findByUsername store user_data.username with
  | some _ => (.error 400 "Username already registered", store)
  | none =>
    match findByEmail store user_data.email with
    | some _ => (.error 400 "Email already registered", store)
    | none =>
      let hashed_password := get_password_hash entropy user_data.password
      let user : User :=
        { id := some next_id
          username := user_data.username
          email := user_data.email
          hashed_password := hashed_password
          is_active := true
          created_at := now }
      (.created 201 user, store ++ [user])

/-- Response of the `login` route: status 200 with the token payload
`{access_token, token_type, expires_in}`, or a raised
`HTTPException`. -/
inductive LoginResult
  | ok (status_code : Nat) (access_token : JwtToken) (token_type : String)
      (expires_in : Int)
  | error (status_code : Nat) (detail : String)
deriving DecidableEq, Repr

/-- Translation of `login` (src/api/auth.py, lines 239-270): looks the
user up by username; an absent user or a failed password verification
both produce the same 401; an inactive user produces 403; otherwise a
token bound to the username is issued with the configured TTL. -/
def login (store : Store) (now : Int) (credentials : UserLogin) : LoginResult :=
  match findByUsername store credentials.username with
  | none => .error 401 "Incorrect username or password"
  | some user =>
    if verify_password credentials.password user.hashed_password then
      if user.is_active then
        .ok 200
          (create_access_token now { sub := some user.username, exp := none }
            (some (ACCESS_TOKEN_EXPIRE_MINUTES * 60)))
          "bearer" (ACCESS_TOKEN_EXPIRE_MINUTES * 60)
      else .error 403 "User account is disabled"
    else .error 401 "Incorrect username or password"

/-! Theorems. -/

/-- Round trip of hash parsing: a hash produced by the encoder parses
back to itself. -/
theorem parseHash_encodeHash (h : BcryptHash) : parseHash (encodeHash h) = some h := by
  cases h
  rfl

/-- Characterization of verification against a freshly produced hash:
it succeeds exactly when the two passwords agree on their first 72
bytes. -/
theorem verify_password_hash_eq (e : Nat) (p q : Bytes) :
    verify_password p (get_password_hash e q) = (p.take 72 == q.take 72) := by
  simp only [verify_password, get_password_hash, bcrypt_gensalt, bcrypt_hashpw,
    bcrypt_checkpw, parseHash_encodeHash, bcryptDigest, List.take_take,
    Nat.min_self, List.cons_beq_cons, beq_self_eq_true, Bool.true_and]

/-- C2: verification accepts a password against its own fresh hash, and
rejects any password whose UTF-8 bytes differ from the hashed one
within the first 72 bytes. -/
theorem verify_password_roundtrip :
    (∀ (e : Nat) (p : Bytes),
      verify_password p (get_password_hash e p) = true) ∧
    (∀ (e : Nat) (p1 p2 : Bytes), p1.take 72 ≠ p2.take 72 →
      verify_password p1 (get_password_hash e p2) = false) := by
  constructor
  · intro e p
    simp [verify_password_hash_eq]
  · intro e p1 p2 hne
    simp [verify_password_hash_eq, hne]

/-- Concrete instance of `verify_password_roundtrip`. -/
theorem verify_password_roundtrip_witness :
    verify_password [97, 98] (get_password_hash 5 [97, 98]) = true ∧
    verify_password [97] (get_password_hash 5 [98]) = false :=
  ⟨verify_password_roundtrip.1 5 [97, 98],
    verify_password_roundtrip.2 5 [97] [98] (by decide)⟩

/-- C4: verification of any password against a malformed hash (one not
in the encoded salt+cost+digest format) returns false; the function is
total, so no exception can be raised. -/
theorem verify_password_malformed_false (p h : Bytes)
    (hmal : parseHash h = none) : verify_password p h = false := by
  simp [verify_password, bcrypt_checkpw, hmal]

/-- Concrete instance of `verify_password_malformed_false`. -/
theorem verify_password_malformed_false_witness :
    parseHash [0, 1, 2] = none ∧ verify_password [97] [0, 1, 2] = false :=
  ⟨by decide, verify_password_malformed_false [97] [0, 1, 2] (by decide)⟩

/-- C5: two passwords whose UTF-8 encodings agree on their first 72
bytes are indistinguishable to the hasher: each verifies against a
fresh hash of the other (and in particular against a hash of itself),
because hashing truncates the byte representation at 72 bytes. -/
theorem truncation_indistinguishable (e : Nat) (p1 p2 : Bytes)
    (hpre : p1.take 72 = p2.take 72) :
    verify_password p1 (get_password_hash e p2) = true ∧
    verify_password p2 (get_password_hash e p1) = true := by
  constructor
  · simp [verify_password_hash_eq, hpre]
  · simp [verify_password_hash_eq, hpre]

/-- Concrete instance of `truncation_indistinguishable`: two passwords
that differ only at byte 73. -/
theorem truncation_indistinguishable_witness :
    verify_password ((List.range 80).map (fun i => i + 1))
      (get_password_hash 5 (((List.range 72).map (fun i => i + 1)) ++ [200])) = true ∧
    verify_password (((List.range 72).map (fun i => i + 1)) ++ [200])
      (get_password_hash 5 ((List.range 80).map (fun i => i + 1))) = true :=
  truncation_indistinguishable 5 ((List.range 80).map (fun i => i + 1))
    (((List.range 72).map (fun i => i + 1)) ++ [200]) (by decide)

/-- C1: decoding a token immediately after issuing it for claim data
`{sub: subject}` with a positive TTL, under the unchanged process
secret and clock, yields a claim set whose `sub` equals the subject. -/
theorem decode_after_issue_returns_subject (subject : String) (ttl now : Int)
    (hsub : subject ≠ "") (httl : 0 < ttl) :
    ∃ c : Claims,
      decode_token
        (create_access_token now { sub := some subject, exp := none } (some ttl))
        now = some c ∧
      c.sub = some subject := by
  refine ⟨{ sub := some subject, exp := some (now + ttl) }, ?_, rfl⟩
  have hlt : ¬ now + ttl < now := by omega
  simp [decode_token, create_access_token, jwt_encode, jwt_decode, hmacSign,
    ALGORITHM, hlt]

/-- Concrete instance of `decode_after_issue_returns_subject`. -/
theorem decode_after_issue_returns_subject_witness :
    ("alice" : String) ≠ "" ∧ (0 : Int) < 60 ∧
    ∃ c : Claims,
      decode_token
        (create_access_token 100 { sub := some "alice", exp := none } (some 60))
        100 = some c ∧
      c.sub = some "alice" :=
  ⟨by decide, by decide,
    decode_after_issue_returns_subject "alice" 60 100 (by decide) (by decide)⟩

/-- C6: two sequential registrations with the same username and
different emails against the same store: the first succeeds with
status 201 and the second fails with status 400, reported as a
username conflict (the username check runs before the email check). -/
theorem register_duplicate_username_conflict
    (store : Store) (now1 now2 : Int) (e1 e2 i1 i2 : Nat) (d1 d2 : UserCreate)
    (hu : d2.username = d1.username) (he : d2.email ≠ d1.email)
    (h1 : findByUsername store d1.username = none)
    (h2 : findByEmail store d1.email = none) :
    ∃ (u : User) (store2 : Store),
      register store now1 e1 i1 d1 = (RegisterResult.created 201 u, store2) ∧
      (register store2 now2 e2 i2 d2).1 =
        RegisterResult.error 400 "Username already registered" := by
  refine ⟨{ id := some i1
            username := d1.username
            email := d1.email
            hashed_password := get_password_hash e1 d1.password
            is_active := true
            created_at := now1 },
    store ++ [{ id := some i1
                username := d1.username
                email := d1.email
                hashed_password := get_password_hash e1 d1.password
                is_active := true
                created_at := now1 }], ?_, ?_⟩
  · simp [register, h1, h2]
  · have h1' : store.find? (fun u => u.username == d1.username) = none := h1
    simp [register, findByUsername, hu, List.find?_append, h1']

/-- Concrete instance of `register_duplicate_username_conflict`. -/
theorem register_duplicate_username_conflict_witness :
    ∃ (u : User) (store2 : Store),
      register [] 0 1 1 ⟨"alice", "a@x.com", [1, 2, 3, 4, 5, 6, 7, 8]⟩ =
        (RegisterResult.created 201 u, store2) ∧
      (register store2 0 2 2 ⟨"alice", "b@x.com", [1, 2, 3, 4, 5, 6, 7, 8]⟩).1 =
        RegisterResult.error 400 "Username already registered" :=
  register_duplicate_username_conflict [] 0 0 1 2 1 2
    ⟨"alice", "a@x.com", [1, 2, 3, 4, 5, 6, 7, 8]⟩
    ⟨"alice", "b@x.com", [1, 2, 3, 4, 5, 6, 7, 8]⟩
    rfl (by decide) rfl rfl

/-- C7: login responds with the same status 401 and the same generic
detail whether the username is absent from the store or present with a
failing password verification. -/
theorem login_generic_unauthorized (store : Store) (now : Int) (c : UserLogin) :
    (findByUsername store c.username = none →
      login store now c = LoginResult.error 401 "Incorrect username or password") ∧
    (∀ user : User, findByUsername store c.username = some user →
      verify_password c.password user.hashed_password = false →
      login store now c = LoginResult.error 401 "Incorrect username or password") := by
  constructor
  · intro h
    simp [login, h]
  · intro user h hv
    simp [login, h, hv]

/-- Concrete instance of `login_generic_unauthorized`: a nonexistent
username, then an existing username with a wrong password, against a
store holding one user. -/
theorem login_generic_unauthorized_witness :
    login [{ id := some 1
             username := "bob"
             email := "b@x.com"
             hashed_password := get_password_hash 7 [1, 2, 3, 4, 5, 6, 7, 8]
             is_active := true
             created_at := 0 }] 0 ⟨"alice", [1, 2, 3, 4, 5, 6, 7, 8]⟩ =
      LoginResult.error 401 "Incorrect username or password" ∧
    login [{ id := some 1
             username := "bob"
             email := "b@x.com"
             hashed_password := get_password_hash 7 [1, 2, 3, 4, 5, 6, 7, 8]
             is_active := true
             created_at := 0 }] 0 ⟨"bob", [9, 9, 9, 9, 9, 9, 9, 9]⟩ =
      LoginResult.error 401 "Incorrect username or password" :=
  ⟨(login_generic_unauthorized _ 0 ⟨"alice", [1, 2, 3, 4, 5, 6, 7, 8]⟩).1 (by decide),
    (login_generic_unauthorized _ 0 ⟨"bob", [9, 9, 9, 9, 9, 9, 9, 9]⟩).2
      { id := some 1
        username := "bob"
        email := "b@x.com"
        hashed_password := get_password_hash 7 [1, 2, 3, 4, 5, 6, 7, 8]
        is_active := true
        created_at := 0 } (by decide) (by decide)⟩

/-- Falsiness helper: a payload carrying a `sub` key is a non-empty
dict, hence truthy. -/
theorem isFalsy_false_of_sub_some {payload : Claims} {s : String}
    (h : payload.sub = some s) : payload.isFalsy = false := by
  cases payload
  simp_all [Claims.isFalsy]

/-- C8 counterexample: a token that decodes successfully to a non-empty
payload carrying no `sub` claim makes `require_auth` produce a 401
rejection whose detail, "Invalid token payload", is distinct from all
four rejections the claim enumerates — so `require_auth` does not
produce exactly one of four distinct rejections or an identity. -/
theorem require_auth_four_rejections_cex :
    decode_token (jwt_encode { sub := none, exp := some 9 } SECRET_KEY JwtAlg.HS256) 0 =
      some { sub := none, exp := some 9 } ∧
    require_auth [] 0
      (some (jwt_encode { sub := none, exp := some 9 } SECRET_KEY JwtAlg.HS256)) =
      AuthOutcome.error 401 "Invalid token payload" ∧
    "Invalid token payload" ∉
      ["Authentication required", "Invalid or expired token", "User not found",
        "User account is disabled"] := by
  refine ⟨rfl, rfl, by decide⟩

/-- C8 amended: `require_auth` produces exactly one of five distinct
rejections or an identity — no bearer credential yields 401
"Authentication required", decode failure yields 401 "Invalid or
expired token", a successfully decoded empty payload falls under the
same falsiness guard and also yields 401 "Invalid or expired token", a
non-empty decoded payload with a missing or empty subject yields 401
"Invalid token payload", a decoded subject with no matching user
yields 401 "User not found", and a matching user with
`is_active = false` yields 403 "User account is disabled"; every
request lands in one of those six outcomes. -/
theorem require_auth_five_way_resolution (store : Store) (now : Int) :
    require_auth store now none = AuthOutcome.error 401 "Authentication required" ∧
    (∀ tok, decode_token tok now = none →
      require_auth store now (some tok) =
        AuthOutcome.error 401 "Invalid or expired token") ∧
    (∀ tok payload, decode_token tok now = some payload →
      payload.isFalsy = true →
      require_auth store now (some tok) =
        AuthOutcome.error 401 "Invalid or expired token") ∧
    (∀ tok payload, decode_token tok now = some payload →
      payload.isFalsy = false →
      (payload.sub = none ∨ payload.sub = some "") →
      require_auth store now (some tok) =
        AuthOutcome.error 401 "Invalid token payload") ∧
    (∀ tok payload username, decode_token tok now = some payload →
      payload.sub = some username → username ≠ "" →
      findByUsername store username = none →
      require_auth store now (some tok) = AuthOutcome.error 401 "User not found") ∧
    (∀ tok payload username user, decode_token tok now = some payload →
      payload.sub = some username → username ≠ "" →
      findByUsername store username = some user → user.is_active = false →
      require_auth store now (some tok) =
        AuthOutcome.error 403 "User account is disabled") ∧
    (∀ creds, (∃ user, require_auth store now creds = AuthOutcome.ok user) ∨
      require_auth store now creds = AuthOutcome.error 401 "Authentication required" ∨
      require_auth store now creds = AuthOutcome.error 401 "Invalid or expired token" ∨
      require_auth store now creds = AuthOutcome.error 401 "Invalid token payload" ∨
      require_auth store now creds = AuthOutcome.error 401 "User not found" ∨
      require_auth store now creds = AuthOutcome.error 403 "User account is disabled") := by
  refine ⟨rfl, ?_, ?_, ?_, ?_, ?_, ?_⟩
  · intro tok hdec
    simp [require_auth, hdec]
  · intro tok payload hdec hfalsy
    simp [require_auth, hdec, hfalsy]
  · intro tok payload hdec hfalsy hsub
    rcases hsub with hsub | hsub <;> simp [require_auth, hdec, hfalsy, hsub]
  · intro tok payload username hdec hsub hne hfind
    simp [require_auth, hdec, isFalsy_false_of_sub_some hsub, hsub, hne, hfind]
  · intro tok payload username user hdec hsub hne hfind hact
    simp [require_auth, hdec, isFalsy_false_of_sub_some hsub, hsub, hne, hfind,
      hact]
  · intro creds
    cases creds with
    | none => simp [require_auth]
    | some tok =>
      cases hdec : decode_token tok now with
      | none => simp [require_auth, hdec]
      | some payload =>
        cases hfalsy : payload.isFalsy with
        | true => simp [require_auth, hdec, hfalsy]
        | false =>
          cases hsub : payload.sub with
          | none => simp [require_auth, hdec, hfalsy, hsub]
          | some username =>
            by_cases hne : username = ""
            · simp [require_auth, hdec, hfalsy, hsub, hne]
            · cases hfind : findByUsername store username with
              | none => simp [require_auth, hdec, hfalsy, hsub, hne, hfind]
              | some user =>
                cases hact : user.is_active with
                | false =>
                  simp [require_auth, hdec, hfalsy, hsub, hne, hfind, hact]
                | true =>
                  exact Or.inl ⟨user,
                    by simp [require_auth, hdec, hfalsy, hsub, hne, hfind, hact]⟩

/-- Concrete instances of `require_auth_five_way_resolution`, one per
conjunct. -/
theorem require_auth_five_way_resolution_witness :
    require_auth [] 0 none = AuthOutcome.error 401 "Authentication required" ∧
    require_auth [] 0 (some JwtToken.malformed) =
      AuthOutcome.error 401 "Invalid or expired token" ∧
    require_auth [] 0
        (some (jwt_encode { sub := none, exp := none } SECRET_KEY JwtAlg.HS256)) =
      AuthOutcome.error 401 "Invalid or expired token" ∧
    require_auth [] 0
        (some (jwt_encode { sub := some "", exp := none } SECRET_KEY JwtAlg.HS256)) =
      AuthOutcome.error 401 "Invalid token payload" ∧
    require_auth [] 0
        (some (jwt_encode { sub := some "alice", exp := none } SECRET_KEY JwtAlg.HS256)) =
      AuthOutcome.error 401 "User not found" ∧
    require_auth
        [{ id := some 1
           username := "dave"
           email := "d@x.com"
           hashed_password := [1]
           is_active := false
           created_at := 0 }] 0
        (some (jwt_encode { sub := some "dave", exp := none } SECRET_KEY JwtAlg.HS256)) =
      AuthOutcome.error 403 "User account is disabled" ∧
    ((∃ user, require_auth [] 0 none = AuthOutcome.ok user) ∨
      require_auth [] 0 none = AuthOutcome.error 401 "Authentication required" ∨
      require_auth [] 0 none = AuthOutcome.error 401 "Invalid or expired token" ∨
      require_auth [] 0 none = AuthOutcome.error 401 "Invalid token payload" ∨
      require_auth [] 0 none = AuthOutcome.error 401 "User not found" ∨
      require_auth [] 0 none = AuthOutcome.error 403 "User account is disabled") :=
  ⟨(require_auth_five_way_resolution [] 0).1,
    (require_auth_five_way_resolution [] 0).2.1 JwtToken.malformed rfl,
    (require_auth_five_way_resolution [] 0).2.2.1
      (jwt_encode { sub := none, exp := none } SECRET_KEY JwtAlg.HS256)
      { sub := none, exp := none } rfl (by decide),
    (require_auth_five_way_resolution [] 0).2.2.2.1
      (jwt_encode { sub := some "", exp := none } SECRET_KEY JwtAlg.HS256)
      { sub := some "", exp := none } rfl (by decide) (Or.inr rfl),
    (require_auth_five_way_resolution [] 0).2.2.2.2.1
      (jwt_encode { sub := some "alice", exp := none } SECRET_KEY JwtAlg.HS256)
      { sub := some "alice", exp := none } "alice" rfl rfl (by decide) rfl,
    (require_auth_five_way_resolution
        [{ id := some 1
           username := "dave"
           email := "d@x.com"
           hashed_password := [1]
           is_active := false
           created_at := 0 }] 0).2.2.2.2.2.1
      (jwt_encode { sub := some "dave", exp := none } SECRET_KEY JwtAlg.HS256)
      { sub := some "dave", exp := none } "dave"
      { id := some 1
        username := "dave"
        email := "d@x.com"
        hashed_password := [1]
        is_active := false
        created_at := 0 } rfl rfl (by decide) (by decide) rfl,
    (require_auth_five_way_resolution [] 0).2.2.2.2.2.2 none⟩

/-- C9: the optional resolver yields `none` — not an error — when no
bearer credential is present, when the token fails to decode, when the
resolved subject has no matching user, or when the matching user is
inactive; and it yields an identity only when the credential decodes to
the username of an existing active user. -/
theorem get_current_user_no_identity (store : Store) (now : Int) :
    get_current_user store now none = none ∧
    (∀ tok, decode_token tok now = none →
      get_current_user store now (some tok) = none) ∧
    (∀ tok payload username, decode_token tok now = some payload →
      payload.sub = some username →
      findByUsername store username = none →
      get_current_user store now (some tok) = none) ∧
    (∀ tok payload username user, decode_token tok now = some payload →
      payload.sub = some username →
      findByUsername store username = some user → user.is_active = false →
      get_current_user store now (some tok) = none) ∧
    (∀ creds user, get_current_user store now creds = some user →
      ∃ tok payload, creds = some tok ∧ decode_token tok now = some payload ∧
        payload.sub = some user.username ∧
        findByUsername store user.username = some user ∧
        user.is_active = true) := by
  refine ⟨rfl, ?_, ?_, ?_, ?_⟩
  · intro tok hdec
    simp [get_current_user, hdec]
  · intro tok payload username hdec hsub hfind
    by_cases hne : username = "" <;>
      simp [get_current_user, hdec, hsub, hne, hfind]
  · intro tok payload username user hdec hsub hfind hact
    by_cases hne : username = "" <;>
      simp [get_current_user, hdec, hsub, hne, hfind, hact]
  · intro creds user h
    cases creds with
    | none => simp [get_current_user] at h
    | some tok =>
      cases hdec : decode_token tok now with
      | none => simp [get_current_user, hdec] at h
      | some payload =>
        cases hsub : payload.sub with
        | none => simp [get_current_user, hdec, hsub] at h
        | some username =>
          by_cases hne : username = ""
          · simp [get_current_user, hdec, hsub, hne] at h
          · cases hfind : findByUsername store username with
            | none => simp [get_current_user, hdec, hsub, hne, hfind] at h
            | some u2 =>
              cases hact : u2.is_active with
              | false => simp [get_current_user, hdec, hsub, hne, hfind, hact] at h
              | true =>
                have hu : u2 = user := by
                  simpa [get_current_user, hdec, hsub, hne, hfind, hact] using h
                subst hu
                have hname : u2.username = username := by
                  have hfind' : store.find? (fun u => u.username == username) =
                      some u2 := hfind
                  simpa using List.find?_some hfind'
                exact ⟨tok, payload, rfl, hdec, by rw [hname]; exact hsub,
                  by rw [hname]; exact hfind, hact⟩

/-- Concrete instances of `get_current_user_no_identity`: no
credential, malformed token, unknown subject, inactive user, and the
only-if direction at an input with an identity. -/
theorem get_current_user_no_identity_witness :
    get_current_user [] 0 none = none ∧
    get_current_user [] 0 (some JwtToken.malformed) = none ∧
    get_current_user [] 0
      (some (jwt_encode { sub := some "alice", exp := none } SECRET_KEY JwtAlg.HS256)) = none ∧
    get_current_user
      [{ id := some 1
         username := "dave"
         email := "d@x.com"
         hashed_password := [1]
         is_active := false
         created_at := 0 }] 0
      (some (jwt_encode { sub := some "dave", exp := none } SECRET_KEY JwtAlg.HS256)) = none ∧
    ∃ tok payload,
      (some (jwt_encode { sub := some "erin", exp := none } SECRET_KEY JwtAlg.HS256) :
        Option JwtToken) = some tok ∧
      decode_token tok 0 = some payload ∧
      payload.sub = some (User.username
        { id := some 1
          username := "erin"
          email := "e@x.com"
          hashed_password := [1]
          is_active := true
          created_at := 0 }) ∧
      findByUsername
        [{ id := some 1
           username := "erin"
           email := "e@x.com"
           hashed_password := [1]
           is_active := true
           created_at := 0 }]
        (User.username
          { id := some 1
            username := "erin"
            email := "e@x.com"
            hashed_password := [1]
            is_active := true
            created_at := 0 }) = some
        { id := some 1
          username := "erin"
          email := "e@x.com"
          hashed_password := [1]
          is_active := true
          created_at := 0 } ∧
      User.is_active
        { id := some 1
          username := "erin"
          email := "e@x.com"
          hashed_password := [1]
          is_active := true
          created_at := 0 } = true :=
  ⟨(get_current_user_no_identity [] 0).1,
    (get_current_user_no_identity [] 0).2.1 JwtToken.malformed rfl,
    (get_current_user_no_identity [] 0).2.2.1
      (jwt_encode { sub := some "alice", exp := none } SECRET_KEY JwtAlg.HS256)
      { sub := some "alice", exp := none } "alice" rfl rfl rfl,
    (get_current_user_no_identity
      [{ id := some 1
         username := "dave"
         email := "d@x.com"
         hashed_password := [1]
         is_active := false
         created_at := 0 }] 0).2.2.2.1
      (jwt_encode { sub := some "dave", exp := none } SECRET_KEY JwtAlg.HS256)
      { sub := some "dave", exp := none } "dave"
      { id := some 1
        username := "dave"
        email := "d@x.com"
        hashed_password := [1]
        is_active := false
        created_at := 0 } rfl rfl rfl rfl,
    (get_current_user_no_identity
      [{ id := some 1
         username := "erin"
         email := "e@x.com"
         hashed_password := [1]
         is_active := true
         created_at := 0 }] 0).2.2.2.2
      (some (jwt_encode { sub := some "erin", exp := none } SECRET_KEY JwtAlg.HS256))
      { id := some 1
        username := "erin"
        email := "e@x.com"
        hashed_password := [1]
        is_active := true
        created_at := 0 } (by decide)⟩

/-- C10 counterexample: a token that decodes successfully to the empty
payload — whose claim dict contains no `sub` claim — is rejected by
`require_auth` with 401 "Invalid or expired token" (the falsiness
guard at src/api/auth.py line 162 catches the empty dict), not with
the fifth rejection "Invalid token payload" the claim asserts for
every such token. -/
theorem invalid_token_payload_empty_payload_cex :
    decode_token (jwt_encode { sub := none, exp := none } SECRET_KEY JwtAlg.HS256) 0 =
      some { sub := none, exp := none } ∧
    require_auth [] 0
      (some (jwt_encode { sub := none, exp := none } SECRET_KEY JwtAlg.HS256)) =
      AuthOutcome.error 401 "Invalid or expired token" ∧
    AuthOutcome.error 401 "Invalid or expired token" ≠
      AuthOutcome.error 401 "Invalid token payload" := by
  refine ⟨rfl, rfl, by decide⟩

/-- C10 amended: a token that decodes successfully to a non-empty
payload whose `sub` claim is missing or empty makes `require_auth`
reject with the fifth distinct rejection, 401 "Invalid token payload",
and makes `get_current_user` yield `none`; both results hold for every
store (neither path consults it), and the detail differs from the four
rejections of the spec's taxonomy.  A token decoding to the empty
payload is instead caught by the falsiness guard and rejected as 401
"Invalid or expired token". -/
theorem invalid_token_payload_fifth_rejection (now : Int) (tok : JwtToken)
    (payload : Claims) (hdec : decode_token tok now = some payload)
    (hfalsy : payload.isFalsy = false)
    (hsub : payload.sub = none ∨ payload.sub = some "") :
    (∀ store : Store,
      require_auth store now (some tok) =
        AuthOutcome.error 401 "Invalid token payload" ∧
      get_current_user store now (some tok) = none) ∧
    "Invalid token payload" ∉
      ["Authentication required", "Invalid or expired token", "User not found",
        "User account is disabled"] := by
  constructor
  · intro store
    rcases hsub with hsub | hsub <;>
      exact ⟨by simp [require_auth, hdec, hfalsy, hsub],
        by simp [get_current_user, hdec, hsub]⟩
  · decide

/-- Concrete instance of `invalid_token_payload_fifth_rejection` at a
token whose non-empty payload has no subject claim. -/
theorem invalid_token_payload_fifth_rejection_witness :
    require_auth [] 0
      (some (jwt_encode { sub := none, exp := some 9 } SECRET_KEY JwtAlg.HS256)) =
      AuthOutcome.error 401 "Invalid token payload" ∧
    get_current_user [] 0
      (some (jwt_encode { sub := none, exp := some 9 } SECRET_KEY JwtAlg.HS256)) =
      none :=
  (invalid_token_payload_fifth_rejection 0
    (jwt_encode { sub := none, exp := some 9 } SECRET_KEY JwtAlg.HS256)
    { sub := none, exp := some 9 } rfl (by decide) (Or.inl rfl)).1 []

end AutodeskKiwi
